import Mathlib

/-!
Verification of the reel-generation pipeline of `src/services/videoService.js`
(quran-reels-generator).

The JavaScript is shallowly embedded: seconds are modelled as rationals,
files as association lists from file name to file content, the network as an
oracle giving each URL a success flag and a payload, and the generated
ffmpeg filter strings as structured records carrying exactly the numeric
fields the code interpolates into the strings.
-/

namespace QuranReels

/-! ## TimelineBuilder (videoService.js lines 444-464, 327)

`generateReel` walks the measured durations with a running `currentTime`,
pushing `{ start: currentTime, end: currentTime + duration, duration }`
for each ayah and then advancing `currentTime`. `totalDuration` is
`durations.reduce((a, b) => a + b, 0)`. -/

/-- One element of `overlayConfigs`: `{ start, end, duration }` (the JS field
`end` is a Lean keyword, rendered here as `stop`). -/
structure OverlayConfig where
  start : ℚ
  stop : ℚ
  duration : ℚ
  deriving DecidableEq, Repr

/-- The `for` loop of lines 448-464, parametrised by the running `currentTime`. -/
def buildConfigsFrom (currentTime : ℚ) : List ℚ → List OverlayConfig
  | [] => []
  | d :: ds =>
    { start := currentTime, stop := currentTime + d, duration := d } ::
      buildConfigsFrom (currentTime + d) ds

/-- `overlayConfigs` as built by lines 444-464: the loop starts with
`currentTime = 0`. -/
def overlayConfigs (durations : List ℚ) : List OverlayConfig :=
  buildConfigsFrom 0 durations

/-- Line 327: `durations.reduce((a, b) => a + b, 0)`. -/
def totalDuration (durations : List ℚ) : ℚ :=
  durations.foldl (fun a b => a + b) 0

/-! ## Compositor filter graph (videoService.js lines 477-496)

For overlay `index` the code emits
`[⟨index+2⟩:v]scale=1080:1920,fade=t=in:st=⟨start⟩:d=⟨fadeInDur⟩:alpha=1,`
`fade=t=out:st=⟨end - fadeOutDur⟩:d=⟨fadeOutDur⟩:alpha=1[ovl⟨index⟩];`
`[⟨last⟩][ovl⟨index⟩]overlay=0:0:enable='between(t,⟨start⟩,⟨end⟩)'[...]`
where `fadeInDur = Math.min(0.5, dur / 3)` and `fadeOutDur = fadeInDur`.
The numeric fields of those strings are modelled as a record. -/

/-- Line 484: `Math.min(0.5, dur / 3)`. -/
def fadeDuration (dur : ℚ) : ℚ := min 0.5 (dur / 3)

/-- The numeric content of the per-overlay filter string (lines 489-491). -/
structure OverlayFilter where
  inputIndex : ℕ
  fadeInStart : ℚ
  fadeInDur : ℚ
  fadeOutStart : ℚ
  fadeOutDur : ℚ
  enableLo : ℚ
  enableHi : ℚ
  deriving DecidableEq, Repr

/-- Filter emitted for `config` at position `index`
(`inputIndex = index + 2` because input 0 is the background and input 1 the
audio; fade-in at `config.start`, fade-out at `config.end - fadeOutDur`,
gate `between(t, config.start, config.end)`). -/
def mkOverlayFilter (index : ℕ) (config : OverlayConfig) : OverlayFilter :=
  { inputIndex := index + 2
    fadeInStart := config.start
    fadeInDur := fadeDuration config.duration
    fadeOutStart := config.stop - fadeDuration config.duration
    fadeOutDur := fadeDuration config.duration
    enableLo := config.start
    enableHi := config.stop }

/-- The `overlayConfigs.forEach((config, index) => ...)` of lines 480-496,
parametrised by the running index. -/
def overlayFiltersFrom (index : ℕ) : List OverlayConfig → List OverlayFilter
  | [] => []
  | c :: cs => mkOverlayFilter index c :: overlayFiltersFrom (index + 1) cs

/-- All per-overlay filters, in verse order (forEach starts at index 0). -/
def overlayFilters (configs : List OverlayConfig) : List OverlayFilter :=
  overlayFiltersFrom 0 configs

/-- ffmpeg `between(x, min, max)`: 1 iff `min <= x` and `x <= max` (inclusive
at both ends) — the semantics of the `enable='between(t,start,end)'` gate. -/
def enableBetween (lo hi t : ℚ) : Bool :=
  decide (lo ≤ t ∧ t ≤ hi)

/-- A half-open time window `[lo, hi)` — the window the specification
describes for overlay visibility. -/
def halfOpenWindow (lo hi t : ℚ) : Prop :=
  lo ≤ t ∧ t < hi

/-- Labels of the video nodes in the generated filter graph: `[base]`,
`[v0] [v1] ...`, `[vout]`. -/
inductive FilterNode where
  | base : FilterNode
  | v : ℕ → FilterNode
  | vout : FilterNode
  deriving DecidableEq, Repr

/-- The node overlay `index` composites onto: `lastOutput`, which is `base`
for the first overlay and `v⟨index-1⟩` afterwards (lines 478, 491, 495). -/
def overlayInput (index : ℕ) : FilterNode :=
  if index = 0 then FilterNode.base else FilterNode.v (index - 1)

/-- The node overlay `index` produces among `count` overlays: `vout` for the
last one, else `v⟨index⟩` (line 491). -/
def overlayOutput (count index : ℕ) : FilterNode :=
  if index = count - 1 then FilterNode.vout else FilterNode.v index

/-! ## TextShaper (videoService.js lines 164-202)

`processArabicText` reshapes then bidi-reorders; `wrapText` does a greedy
word wrap measuring `processArabicText(currentLine + " " + word)` against
`maxWidth`; `createTextOverlay` splits the text on `'\n\n'`, wraps each
trimmed paragraph, pushes a `""` spacer after each, and pops a trailing
spacer. The reshaper, the bidi reordering and `ctx.measureText` are
external libraries, taken as parameters. -/

/-- Lines 165-168: `bidi.getReorderedString(reshaper.convertArabic(raw), ...)`. -/
def processArabicText (reshape reorder : String → String) (raw : String) : String :=
  reorder (reshape raw)

/-- The wrap loop of lines 175-186: `currentLine` against the remaining
words; pushes `currentLine` and restarts on overflow of the measured
candidate `currentLine + " " + word`, else extends; line 186 pushes the
final `currentLine`. -/
def wrapLoop (process : String → String) (measure : String → ℚ) (maxWidth : ℚ) :
    String → List String → List String
  | currentLine, [] => [currentLine]
  | currentLine, word :: rest =>
    if measure (process (currentLine ++ " " ++ word)) > maxWidth then
      currentLine :: wrapLoop process measure maxWidth word rest
    else
      wrapLoop process measure maxWidth (currentLine ++ " " ++ word) rest

/-- Lines 170-188: `words = text.split(' ')`, `currentLine = words[0]`, then
the loop from index 1. (`String.splitOn` never returns `[]`, so the first
arm is unreachable.) -/
def wrapText (process : String → String) (measure : String → ℚ) (maxWidth : ℚ)
    (text : String) : List String :=
  match text.splitOn " " with
  | [] => []
  | w :: ws => wrapLoop process measure maxWidth w ws

/-- Lines 193-197: for each paragraph push its wrapped lines then a `""`
spacer. -/
def spacerJoined (lineGroups : List (List String)) : List String :=
  (lineGroups.map (fun g => g ++ [""])).flatten

/-- Lines 200-202: pop the last element when it is the `""` spacer. -/
def removeTrailingSpacer (lines : List String) : List String :=
  if lines.getLast? = some "" then lines.dropLast else lines

/-- `allRenderLines` as computed in `createTextOverlay` (lines 190-202):
split on `'\n\n'`, wrap each trimmed paragraph, join with spacers, drop a
trailing spacer. -/
def allRenderLines (process : String → String) (measure : String → ℚ) (maxWidth : ℚ)
    (text : String) : List String :=
  removeTrailingSpacer
    (spacerJoined ((text.splitOn "\n\n").map
      (fun p => wrapText process measure maxWidth p.trim)))

/-! Reference formulation, written from the specification's words
(spec §4.2): fold over the subsequent words keeping committed lines and the
current line; paragraphs wrapped independently and joined by a blank
separator line. -/

/-- Spec reference: one wrap decision — measure the candidate
`currentLine + " " + word`; commit and restart on overflow, else extend. -/
def wrapStep (process : String → String) (measure : String → ℚ) (maxWidth : ℚ)
    (acc : List String × String) (word : String) : List String × String :=
  if measure (process (acc.2 ++ " " ++ word)) > maxWidth then
    (acc.1 ++ [acc.2], word)
  else
    (acc.1, acc.2 ++ " " ++ word)

/-- Spec reference: the first word starts the first line; fold the wrap
decision over the subsequent words; the pending line ends the output. -/
def wrapReference (process : String → String) (measure : String → ℚ) (maxWidth : ℚ)
    (text : String) : List String :=
  match text.splitOn " " with
  | [] => []
  | w :: ws =>
    let st := ws.foldl (wrapStep process measure maxWidth) ([], w)
    st.1 ++ [st.2]

/-- Spec reference: paragraph groups joined by a single blank separator
line, with no separator trailing the output. -/
def blankJoined : List (List String) → List String
  | [] => []
  | [g] => g
  | g :: gs => g ++ [""] ++ blankJoined gs

/-- Spec reference for the whole shaping output: wrap each trimmed
paragraph independently, join the groups with blank separator lines. -/
def referenceRenderLines (process : String → String) (measure : String → ℚ)
    (maxWidth : ℚ) (text : String) : List String :=
  blankJoined ((text.splitOn "\n\n").map
    (fun p => wrapReference process measure maxWidth p.trim))

/-! ## AssetAcquirer (videoService.js lines 60-89, 298-325, 368-403)

Directories are association lists `(fileName, content)`; the network is an
oracle `Net`; `fs.existsSync`/`copyFileSync`/`readdirSync(...).find` are
lookups and cons operations on those lists. -/

/-- One file: name and content. -/
abbrev FileEntry := String × String

/-- `fs.existsSync` + read: first entry with the given name. -/
def lookupFile (files : List FileEntry) (name : String) : Option String :=
  (files.find? (fun e => e.1 = name)).map (fun e => e.2)

/-- `fs.unlink`: drop every entry with the given name. -/
def removeFile (files : List FileEntry) (name : String) : List FileEntry :=
  files.filter (fun e => e.1 != name)

/-- The two directories the audio path touches: the persistent
`audio_cache` and the per-run `uploads` temp directory. -/
structure FileSys where
  cache : List FileEntry
  temp : List FileEntry
  deriving Repr

/-- The network oracle: whether a GET of the URL succeeds, and the payload
it would deliver. -/
structure Net where
  ok : String → Bool
  content : String → String

/-- JS `String.prototype.includes` on explicit character lists. -/
def containsSub (pattern : List Char) : List Char → Bool
  | [] => decide (pattern = [])
  | c :: rest => pattern.isPrefixOf (c :: rest) || containsSub pattern rest

/-- JS `s.includes(pattern)`. -/
def jsIncludes (s pattern : String) : Bool :=
  containsSub pattern.data s.data

/-- JS `s.padStart(3, '0')`. -/
def padStart3 (s : String) : String :=
  if s.length ≥ 3 then s else ⟨List.replicate (3 - s.length) '0'⟩ ++ s

/-- `String(n).padStart(3, '0')`. -/
def pad3 (n : ℕ) : String := padStart3 (toString n)

/-- Line 299: the cache file name
`⟨reciterId⟩_⟨surah:3⟩⟨verse:3⟩.mp3`. -/
def audioCacheFileName (reciterId : String) (surah verse : ℕ) : String :=
  reciterId ++ "_" ++ pad3 surah ++ pad3 verse ++ ".mp3"

/-- Line 304: the remote audio URL. -/
def audioUrl (reciterId : String) (surah verse : ℕ) : String :=
  "https://www.everyayah.com/data/" ++ reciterId ++ "/" ++ pad3 surah ++ pad3 verse ++ ".mp3"

/-- Line 301: the per-run copy `audio_⟨timestamp⟩_⟨verse⟩.mp3`. -/
def runAudioFileName (timestamp verse : ℕ) : String :=
  "audio_" ++ toString timestamp ++ "_" ++ toString verse ++ ".mp3"

/-- Line 310: the search pattern of the last-resort fallback,
`` `_${ayah.numberInSurah}.mp3` ``. -/
def fallbackPattern (verse : ℕ) : String :=
  "_" ++ toString verse ++ ".mp3"

/-- Line 323: the error thrown when no audio could be resolved — it names
the verse number. -/
def audioErrorMessage (verse : ℕ) : String :=
  "تعذر تحميل الصوت للآية " ++ toString verse ++ ". تأكد من اتصال الإنترنت."

/-- Lines 298-324 for one ayah: if the cache entry is missing, attempt the
download into the cache path (a failed download leaves no file, see
`downloadFile`), falling back to any temp-directory file whose name
contains `_⟨verse⟩.mp3`; then, if the cache entry exists, copy it to the
per-run path. Returns the new file system, the number of network download
attempts, and the per-run audio file name (`none` models the `throw`). -/
def acquireAudio (net : Net) (fsys : FileSys) (reciterId : String)
    (surah verse timestamp : ℕ) : FileSys × ℕ × Option String :=
  let cacheFileName := audioCacheFileName reciterId surah verse
  let step1 : FileSys × ℕ :=
    if (lookupFile fsys.cache cacheFileName).isSome then (fsys, 0)
    else if net.ok (audioUrl reciterId surah verse) then
      ({ fsys with
          cache := (cacheFileName, net.content (audioUrl reciterId surah verse)) :: fsys.cache },
        1)
    else
      match fsys.temp.find? (fun e => jsIncludes e.1 (fallbackPattern verse)) with
      | some e => ({ fsys with cache := (cacheFileName, e.2) :: fsys.cache }, 1)
      | none => (fsys, 1)
  match lookupFile step1.1.cache cacheFileName with
  | some c =>
    ({ step1.1 with temp := (runAudioFileName timestamp verse, c) :: step1.1.temp },
      step1.2, some (runAudioFileName timestamp verse))
  | none => (step1.1, step1.2, none)

/-- The `for (const ayah of ayahs)` loop of lines 298-325: acquire each
verse in order; the first verse that resolves no audio aborts the whole
job with `audioErrorMessage`. Returns the final file system, the total
download attempts, and the per-run audio file names in verse order. -/
def acquireAll (net : Net) (reciterId : String) (surah timestamp : ℕ) :
    FileSys → List ℕ → Except String (FileSys × ℕ × List String)
  | fsys, [] => .ok (fsys, 0, [])
  | fsys, v :: vs =>
    match acquireAudio net fsys reciterId surah v timestamp with
    | (fs1, n, some file) =>
      match acquireAll net reciterId surah timestamp fs1 vs with
      | .ok (fs2, m, files) => .ok (fs2, n + m, file :: files)
      | .error e => .error e
    | (_fs1, _n, none) => .error (audioErrorMessage v)

/-- Line 243. -/
def loremFlickrUrl : String := "https://loremflickr.com/1080/1920/nature,landscape,sky/all"

/-- Line 388. -/
def picsumUrl : String := "https://picsum.photos/1080/1920?nature,landscape"

/-- Line 401: the error thrown when no background resolves. -/
def backgroundErrorMessage : String :=
  "تعذر جلب صور مناظر طبيعية من الإنترنت. يرجى التأكد من اتصال الإنترنت في الـ Terminal أو رفع خلفية مخصصة."

/-- Line 380: `nature_img_⟨timestamp⟩.jpg`. -/
def natureImgFileName (timestamp : ℕ) : String :=
  "nature_img_" ++ toString timestamp ++ ".jpg"

/-- `path.extname`: the suffix from the last dot, empty when there is no
dot. -/
def extname (p : String) : String :=
  match p.splitOn "." with
  | [] => ""
  | [_] => ""
  | ps => "." ++ ps.getLastD ""

/-- Line 376: `['.mp4', '.mov', '.avi'].includes(ext)` on the lower-cased
extension. -/
def isAnimatedExt (p : String) : Bool :=
  [".mp4", ".mov", ".avi"].contains (extname p).toLower

/-- Lines 378-402: LoremFlickr first, then Picsum; if both fail, throw
`backgroundErrorMessage`. A fetched image is a still (`isAnimatedVideo =
false`). -/
def fetchRemoteBackground (net : Net) (timestamp : ℕ) : Except String (String × Bool) :=
  if net.ok loremFlickrUrl then .ok (natureImgFileName timestamp, false)
  else if net.ok picsumUrl then .ok (natureImgFileName timestamp, false)
  else .error backgroundErrorMessage

/-- Lines 368-403: a supplied custom background that exists on disk wins
(classified by extension); otherwise the remote sources are tried. -/
def resolveBackground (net : Net) (diskHas : String → Bool)
    (customBackgroundPath : Option String) (timestamp : ℕ) :
    Except String (String × Bool) :=
  match customBackgroundPath with
  | some p =>
    if diskHas p then .ok (p, isAnimatedExt p)
    else fetchRemoteBackground net timestamp
  | none => fetchRemoteBackground net timestamp

/-! ## BackgroundPreparer still-image path (videoService.js lines 417-424)

The still branch emits
`scale=1280:2276:force_original_aspect_ratio=increase`, `crop=1280:2276`,
`zoompan=z='min(1.05+in*0.001,1.5)':x='iw/2-(iw/zoom/2)':y='ih/2-(ih/zoom/2)':d=1:s=1080x1920`. -/

/-- The zoompan zoom expression `min(1.05 + in*0.001, 1.5)` as a function
of the frame index `in`. -/
def kenBurnsZoom (frame : ℕ) : ℚ :=
  min (1.05 + frame * 0.001) 1.5

/-- The numeric content of the still-image `-vf` chain. -/
structure StillBackgroundFilter where
  scaleW : ℕ
  scaleH : ℕ
  cropW : ℕ
  cropH : ℕ
  zoom : ℕ → ℚ
  outW : ℕ
  outH : ℕ

/-- Lines 420-423: oversized scale-to-fill and crop to 1280x2276, zoompan
with `kenBurnsZoom`, output size 1080x1920. -/
def stillBackgroundFilter : StillBackgroundFilter :=
  { scaleW := 1280, scaleH := 2276, cropW := 1280, cropH := 2276
    zoom := kenBurnsZoom, outW := 1080, outH := 1920 }

/-! ## downloadFile (videoService.js lines 60-89)

`fs.createWriteStream(dest)` creates (or truncates) the destination; a
non-200 status throws inside the `try`, whose `catch` unlinks `dest`; a
request/timeout error lands in the same `catch`; a write-stream error is
handled by unlinking `dest` and rejecting; only a finished write leaves the
payload at `dest`. -/

/-- What happened during one `downloadFile` call: the request threw before
any response, or a response with some status arrived and the piped write
either finished or errored. -/
inductive DownloadEvent where
  | requestError : DownloadEvent
  | response : ℕ → Bool → DownloadEvent
  deriving DecidableEq, Repr

/-- Lines 60-89: result is the directory after the call and whether the
call succeeded. Every failure path runs `fs.unlink(dest)`. -/
def downloadFile (ev : DownloadEvent) (content : String) (dest : String)
    (files : List FileEntry) : List FileEntry × Bool :=
  let opened := (dest, "") :: files
  match ev with
  | .requestError => (removeFile opened dest, false)
  | .response status writeOk =>
    if status ≠ 200 then (removeFile opened dest, false)
    else if writeOk then ((dest, content) :: files, true)
    else (removeFile opened dest, false)

/-! ## The pipeline (generateReel, videoService.js lines 285-519) -/

/-- Line 288: `reel_⟨timestamp⟩.mp4`. -/
def outputFileName (timestamp : ℕ) : String :=
  "reel_" ++ toString timestamp ++ ".mp4"

/-- The data `generateReel` hands to the final encode. -/
structure ReelOutput where
  audioFiles : List String
  durations : List ℚ
  backgroundSource : String
  isAnimatedVideo : Bool
  filters : List OverlayFilter
  outputFile : String
  deriving Repr

/-- `generateReel` at the granularity the claims need: acquire all verse
audio (aborting on the first unresolvable verse), resolve the background
(aborting when none resolves), then build the timeline and the overlay
filters from the measured durations. An `Except.error` models the thrown
error: no output artifact is produced. -/
def generateReelModel (net : Net) (diskHas : String → Bool) (durationOf : String → ℚ)
    (fsys : FileSys) (reciterId : String) (surah : ℕ) (verses : List ℕ)
    (customBackgroundPath : Option String) (timestamp : ℕ) : Except String ReelOutput :=
  match acquireAll net reciterId surah timestamp fsys verses with
  | .error e => .error e
  | .ok (_fs1, _n, files) =>
    match resolveBackground net diskHas customBackgroundPath timestamp with
    | .error e => .error e
    | .ok (bg, isAnim) =>
      let durations := files.map durationOf
      .ok { audioFiles := files
            durations := durations
            backgroundSource := bg
            isAnimatedVideo := isAnim
            filters := overlayFilters (overlayConfigs durations)
            outputFile := outputFileName timestamp }

/-! ## Timeline lemmas -/

theorem buildConfigsFrom_length (c : ℚ) (ds : List ℚ) :
    (buildConfigsFrom c ds).length = ds.length := by
  induction ds generalizing c with
  | nil => rfl
  | cons d tl ih => simp [buildConfigsFrom, ih]

theorem buildConfigsFrom_get? (ds : List ℚ) (c : ℚ) (i : ℕ) :
    (buildConfigsFrom c ds).get? i =
      (ds.get? i).map fun d =>
        { start := c + (ds.take i).sum, stop := c + (ds.take (i + 1)).sum,
          duration := d } := by
  induction ds generalizing c i with
  | nil => simp [buildConfigsFrom]
  | cons d tl ih =>
    cases i with
    | zero => simp [buildConfigsFrom]
    | succ n =>
      simp only [buildConfigsFrom, List.get?_cons_succ, ih (c + d) n,
        List.take_succ_cons, List.sum_cons]
      cases tl.get? n <;> simp [add_assoc]

theorem overlayConfigs_get? (ds : List ℚ) (i : ℕ) :
    (overlayConfigs ds).get? i =
      (ds.get? i).map fun d =>
        { start := (ds.take i).sum, stop := (ds.take (i + 1)).sum,
          duration := d } := by
  simpa using buildConfigsFrom_get? ds 0 i

theorem buildConfigsFrom_stop_eq (c : ℚ) (ds : List ℚ) :
    ∀ e ∈ buildConfigsFrom c ds, e.stop = e.start + e.duration := by
  induction ds generalizing c with
  | nil => simp [buildConfigsFrom]
  | cons d tl ih =>
    intro e he
    simp only [buildConfigsFrom, List.mem_cons] at he
    rcases he with he | he
    · rw [he]
    · exact ih (c + d) e he

theorem buildConfigsFrom_duration_mem (c : ℚ) (ds : List ℚ) :
    ∀ e ∈ buildConfigsFrom c ds, e.duration ∈ ds := by
  induction ds generalizing c with
  | nil => simp [buildConfigsFrom]
  | cons d tl ih =>
    intro e he
    simp only [buildConfigsFrom, List.mem_cons] at he ⊢
    rcases he with he | he
    · left; rw [he]
    · right; exact ih (c + d) e he

theorem foldl_add_eq (ds : List ℚ) (c : ℚ) :
    ds.foldl (fun a b => a + b) c = c + ds.sum := by
  induction ds generalizing c with
  | nil => simp
  | cons d tl ih => simp [ih (c + d), List.sum_cons]; ring

theorem totalDuration_eq_sum (ds : List ℚ) : totalDuration ds = ds.sum := by
  simpa [totalDuration] using foldl_add_eq ds 0

theorem buildConfigsFrom_getLast?_stop (ds : List ℚ) (c : ℚ) (hne : ds ≠ []) :
    ((buildConfigsFrom c ds).getLast?).map OverlayConfig.stop = some (c + ds.sum) := by
  induction ds generalizing c with
  | nil => exact absurd rfl hne
  | cons d tl ih =>
    cases tl with
    | nil => simp [buildConfigsFrom]
    | cons e tl2 =>
      have h := ih (c + d) (by simp)
      simp only [buildConfigsFrom, List.getLast?_cons_cons] at h ⊢
      rw [h]
      congr 1
      simp only [List.sum_cons]
      ring

/-- C1: for every non-empty sequence of measured (hence non-negative)
per-verse durations, entry `i` of the built timeline has
`start = sum(durations[0..i))` and `end = sum(durations[0..i+1))`; the
first entry starts at 0, consecutive entries share a boundary, every
window is non-degenerate (contiguous and non-overlapping), and the last
entry ends at the total duration used downstream. -/
theorem timeline_window_sums (ds : List ℚ) (hne : ds ≠ [])
    (hnn : ∀ d ∈ ds, 0 ≤ d) :
    (overlayConfigs ds).length = ds.length ∧
    (∀ i d, ds.get? i = some d →
      (overlayConfigs ds).get? i =
        some { start := (ds.take i).sum, stop := (ds.take (i + 1)).sum,
               duration := d }) ∧
    (∀ e, (overlayConfigs ds).get? 0 = some e → e.start = 0) ∧
    (∀ i e f, (overlayConfigs ds).get? i = some e →
      (overlayConfigs ds).get? (i + 1) = some f → e.stop = f.start) ∧
    (∀ e ∈ overlayConfigs ds, e.start ≤ e.stop) ∧
    (∀ e, (overlayConfigs ds).getLast? = some e → e.stop = totalDuration ds) := by
  refine ⟨buildConfigsFrom_length 0 ds, ?_, ?_, ?_, ?_, ?_⟩
  · intro i d hd
    rw [overlayConfigs_get? ds i, hd]
    rfl
  · intro e he
    cases ds with
    | nil => simp [overlayConfigs, buildConfigsFrom] at he
    | cons d tl =>
      simp only [overlayConfigs, buildConfigsFrom, List.get?_cons_zero,
        Option.some_inj] at he
      rw [← he]
  · intro i e f he hf
    rw [overlayConfigs_get? ds i] at he
    rw [overlayConfigs_get? ds (i + 1)] at hf
    rcases Option.map_eq_some'.mp he with ⟨d, _hd, hed⟩
    rcases Option.map_eq_some'.mp hf with ⟨d2, _hd2, hfd⟩
    rw [← hed, ← hfd]
  · intro e he
    have hd : e.stop = e.start + e.duration := buildConfigsFrom_stop_eq 0 ds e he
    have hdur : 0 ≤ e.duration :=
      hnn e.duration (buildConfigsFrom_duration_mem 0 ds e he)
    rw [hd]
    linarith
  · intro e he
    have h := buildConfigsFrom_getLast?_stop ds 0 hne
    rw [show buildConfigsFrom 0 ds = overlayConfigs ds from rfl, he] at h
    simp only [Option.map_some', Option.some_inj] at h
    rw [totalDuration_eq_sum]
    simpa using h

/-- Witness for C1 at the spec's scenario durations `[3.0, 4.5, 2.0]`:
the second window is `[3, 15/2)` and the last window ends at the total
`19/2`. -/
theorem timeline_window_sums_witness :
    (overlayConfigs [(3 : ℚ), 9/2, 2]).length = 3 ∧
    (overlayConfigs [(3 : ℚ), 9/2, 2]).get? 1 =
      some { start := 3, stop := 15/2, duration := 9/2 } ∧
    (∀ e, (overlayConfigs [(3 : ℚ), 9/2, 2]).getLast? = some e →
      e.stop = totalDuration [(3 : ℚ), 9/2, 2]) := by
  have h := timeline_window_sums [(3 : ℚ), 9/2, 2] (by simp)
    (by intro d hd; fin_cases hd <;> norm_num)
  refine ⟨h.1, ?_, h.2.2.2.2.2⟩
  have h2 := h.2.1 1 (9/2) (by rfl)
  rw [h2]
  norm_num

/-! ## Compositor lemmas -/

theorem overlayFiltersFrom_get? (cs : List OverlayConfig) (k i : ℕ) :
    (overlayFiltersFrom k cs).get? i = (cs.get? i).map (mkOverlayFilter (k + i)) := by
  induction cs generalizing k i with
  | nil => simp [overlayFiltersFrom]
  | cons c tl ih =>
    cases i with
    | zero => simp [overlayFiltersFrom]
    | succ n =>
      simp only [overlayFiltersFrom, List.get?_cons_succ, ih (k + 1) n]
      have hk : k + 1 + n = k + (n + 1) := by omega
      rw [hk]

theorem overlayFilters_get? (cs : List OverlayConfig) (i : ℕ) :
    (overlayFilters cs).get? i = (cs.get? i).map (mkOverlayFilter i) := by
  simpa using overlayFiltersFrom_get? cs 0 i

/-- C2: for every timeline entry of the pipeline, the compositor's filter
gives overlay `i` a fade-in starting at `entries[i].start` and a fade-out
ending exactly at `entries[i].end`, and both fades last
`min(0.5, d_i / 3)` seconds where `d_i = entries[i].end - entries[i].start`. -/
theorem overlay_fade_windows (ds : List ℚ) (i : ℕ) (c : OverlayConfig)
    (f : OverlayFilter)
    (hc : (overlayConfigs ds).get? i = some c)
    (hf : (overlayFilters (overlayConfigs ds)).get? i = some f) :
    f.fadeInStart = c.start ∧
    f.fadeInDur = min 0.5 ((c.stop - c.start) / 3) ∧
    f.fadeOutDur = min 0.5 ((c.stop - c.start) / 3) ∧
    f.fadeOutStart + f.fadeOutDur = c.stop := by
  have hmem : c ∈ overlayConfigs ds := by
    have := List.get?_mem hc
    exact this
  have hdur : c.stop = c.start + c.duration :=
    buildConfigsFrom_stop_eq 0 ds c hmem
  have hfc : f = mkOverlayFilter i c := by
    rw [overlayFilters_get? (overlayConfigs ds) i, hc] at hf
    simp only [Option.map_some', Option.some_inj] at hf
    rw [hf]
  have hd : c.stop - c.start = c.duration := by rw [hdur]; ring
  subst hfc
  refine ⟨rfl, ?_, ?_, ?_⟩
  · simp [mkOverlayFilter, fadeDuration, hd]
  · simp [mkOverlayFilter, fadeDuration, hd]
  · simp only [mkOverlayFilter]
    ring

/-- Witness for C2 at durations `[1]`: the single entry is `(0, 1)`, so the
fade lasts `min(0.5, 1/3) = 1/3`, fade-in starts at 0 and the fade-out
starts at `2/3` and ends at `1`. -/
theorem overlay_fade_windows_witness :
    (mkOverlayFilter 0 { start := 0, stop := 1, duration := 1 }).fadeInStart = 0 ∧
    (mkOverlayFilter 0 { start := 0, stop := 1, duration := 1 }).fadeInDur = 1/3 ∧
    (mkOverlayFilter 0 { start := 0, stop := 1, duration := 1 }).fadeOutDur = 1/3 ∧
    (mkOverlayFilter 0 { start := 0, stop := 1, duration := 1 }).fadeOutStart +
      (mkOverlayFilter 0 { start := 0, stop := 1, duration := 1 }).fadeOutDur = 1 := by
  have h := overlay_fade_windows [(1 : ℚ)] 0
    { start := 0, stop := 1, duration := 1 }
    (mkOverlayFilter 0 { start := 0, stop := 1, duration := 1 })
    (by rw [overlayConfigs_get?]; norm_num)
    (by rw [overlayFilters_get?, overlayConfigs_get?]; norm_num)
  refine ⟨h.1, ?_, ?_, h.2.2.2⟩
  · rw [h.2.1]; norm_num
  · rw [h.2.2.1]; norm_num

/-- C3 counterexample: for durations `[1]` the single entry's window is
`(0, 1)`, and the emitted gate `between(t, 0, 1)` is still enabled at
`t = 1`, although the half-open window `[0, 1)` the claim describes
excludes `t = 1`. -/
theorem overlay_gate_halfopen_ce :
    (overlayFilters (overlayConfigs [(1 : ℚ)])).get? 0 =
      some (mkOverlayFilter 0 { start := 0, stop := 1, duration := 1 }) ∧
    enableBetween (mkOverlayFilter 0 { start := 0, stop := 1, duration := 1 }).enableLo
      (mkOverlayFilter 0 { start := 0, stop := 1, duration := 1 }).enableHi 1 = true ∧
    ¬ halfOpenWindow (mkOverlayFilter 0 { start := 0, stop := 1, duration := 1 }).enableLo
      (mkOverlayFilter 0 { start := 0, stop := 1, duration := 1 }).enableHi 1 := by
  refine ⟨?_, ?_, ?_⟩
  · rw [overlayFilters_get?, overlayConfigs_get?]
    norm_num
  · simp [enableBetween, mkOverlayFilter]
  · simp [halfOpenWindow, mkOverlayFilter]

/-- C3 amended: the gate of overlay `i` is enabled exactly during the
closed window `[entries[i].start, entries[i].end]` (ffmpeg `between` is
inclusive at both endpoints), and the composites chain sequentially: the
first overlay reads the scaled base, each next overlay reads the previous
composite's output, and the last composite produces the final `vout`
node. -/
theorem overlay_gate_closed_and_chain (ds : List ℚ) (i : ℕ) (c : OverlayConfig)
    (f : OverlayFilter)
    (hc : (overlayConfigs ds).get? i = some c)
    (hf : (overlayFilters (overlayConfigs ds)).get? i = some f) :
    (∀ t : ℚ, enableBetween f.enableLo f.enableHi t = true ↔
      (c.start ≤ t ∧ t ≤ c.stop)) ∧
    overlayInput 0 = FilterNode.base ∧
    (∀ j, j + 1 < ds.length → overlayInput (j + 1) = overlayOutput ds.length j) ∧
    overlayOutput ds.length (ds.length - 1) = FilterNode.vout := by
  have hfc : f = mkOverlayFilter i c := by
    rw [overlayFilters_get? (overlayConfigs ds) i, hc] at hf
    simp only [Option.map_some', Option.some_inj] at hf
    rw [hf]
  subst hfc
  refine ⟨?_, rfl, ?_, ?_⟩
  · intro t
    simp [enableBetween, mkOverlayFilter]
  · intro j hj
    have hne : j + 1 ≠ 0 := by omega
    have hlt : j ≠ ds.length - 1 := by omega
    simp [overlayInput, overlayOutput, hne, hlt]
  · simp [overlayOutput]

/-- Witness for the amended C3 at durations `[1, 2]`: the first entry's
gate is enabled at its right endpoint `t = 1`, disabled at `t = 3/2`; the
second overlay reads node `v0`, the output of the first composite, and
the second (last) composite produces `vout`. -/
theorem overlay_gate_closed_and_chain_witness :
    enableBetween (mkOverlayFilter 0 { start := 0, stop := 1, duration := 1 }).enableLo
      (mkOverlayFilter 0 { start := 0, stop := 1, duration := 1 }).enableHi 1 = true ∧
    enableBetween (mkOverlayFilter 0 { start := 0, stop := 1, duration := 1 }).enableLo
      (mkOverlayFilter 0 { start := 0, stop := 1, duration := 1 }).enableHi (3/2) = false ∧
    overlayInput 1 = overlayOutput 2 0 ∧
    overlayOutput 2 1 = FilterNode.vout := by
  have h := overlay_gate_closed_and_chain [(1 : ℚ), 2] 0
    { start := 0, stop := 1, duration := 1 }
    (mkOverlayFilter 0 { start := 0, stop := 1, duration := 1 })
    (by rw [overlayConfigs_get?]; norm_num)
    (by rw [overlayFilters_get?, overlayConfigs_get?]; norm_num)
  refine ⟨?_, ?_, ?_, ?_⟩
  · exact (h.1 1).mpr (by norm_num)
  · by_cases hb : enableBetween
        (mkOverlayFilter 0 { start := 0, stop := 1, duration := 1 }).enableLo
        (mkOverlayFilter 0 { start := 0, stop := 1, duration := 1 }).enableHi (3/2) = true
    · exfalso
      have hco := (h.1 (3/2)).mp hb
      norm_num at hco
    · simp only [Bool.not_eq_true] at hb
      exact hb
  · exact h.2.2.1 0 (by norm_num)
  · exact h.2.2.2

/-! ## TextShaper lemmas -/

theorem wrapStep_foldl (process : String → String) (measure : String → ℚ)
    (maxWidth : ℚ) (ws : List String) :
    ∀ (acc : List String) (cur : String),
      (ws.foldl (wrapStep process measure maxWidth) (acc, cur)).1 ++
        [(ws.foldl (wrapStep process measure maxWidth) (acc, cur)).2] =
      acc ++ wrapLoop process measure maxWidth cur ws := by
  induction ws with
  | nil => intro acc cur; rfl
  | cons word rest ih =>
    intro acc cur
    simp only [List.foldl_cons, wrapLoop]
    by_cases hw : measure (process (cur ++ " " ++ word)) > maxWidth
    · rw [show wrapStep process measure maxWidth (acc, cur) word =
        (acc ++ [cur], word) from by simp [wrapStep, hw]]
      rw [ih (acc ++ [cur]) word, if_pos hw]
      simp
    · rw [show wrapStep process measure maxWidth (acc, cur) word =
        (acc, cur ++ " " ++ word) from by simp [wrapStep, hw]]
      rw [ih acc (cur ++ " " ++ word), if_neg hw]

theorem wrapReference_eq_wrapText (process : String → String)
    (measure : String → ℚ) (maxWidth : ℚ) (text : String) :
    wrapReference process measure maxWidth text =
      wrapText process measure maxWidth text := by
  unfold wrapReference wrapText
  cases text.splitOn " " with
  | nil => rfl
  | cons w ws =>
    simpa using wrapStep_foldl process measure maxWidth ws [] w

theorem spacerJoined_eq_blankJoined (gs : List (List String)) (hne : gs ≠ []) :
    spacerJoined gs = blankJoined gs ++ [""] := by
  induction gs with
  | nil => exact absurd rfl hne
  | cons g tl ih =>
    cases tl with
    | nil => simp [spacerJoined, blankJoined]
    | cons g2 tl2 =>
      have e2 : blankJoined (g :: g2 :: tl2) = g ++ [""] ++ blankJoined (g2 :: tl2) := rfl
      have e1 : spacerJoined (g :: g2 :: tl2) = (g ++ [""]) ++ spacerJoined (g2 :: tl2) := by
        simp [spacerJoined]
      rw [e1, ih (by simp), e2]
      simp

theorem removeTrailingSpacer_concat_blank (ls : List String) :
    removeTrailingSpacer (ls ++ [""]) = ls := by
  simp [removeTrailingSpacer, List.getLast?_concat, List.dropLast_concat]

theorem removeTrailingSpacer_spacerJoined (gs : List (List String)) :
    removeTrailingSpacer (spacerJoined gs) = blankJoined gs := by
  cases gs with
  | nil => rfl
  | cons g tl =>
    rw [spacerJoined_eq_blankJoined (g :: tl) (by simp),
      removeTrailingSpacer_concat_blank]

/-- C6: for every reshaper, bidi reorderer, measuring function, maximum
width and verse text, the shaper's output (split on `'\n\n'`, greedy-wrap
each trimmed paragraph measuring the reshaped-and-reordered candidate
line, spacer-join, drop a trailing spacer) equals the reference greedy
wrap described by the specification (fold of the per-word wrap decision,
paragraph groups joined by blank separator lines with none trailing). -/
theorem shaper_matches_reference_wrap (reshape reorder : String → String)
    (measure : String → ℚ) (maxWidth : ℚ) (text : String) :
    allRenderLines (processArabicText reshape reorder) measure maxWidth text =
      referenceRenderLines (processArabicText reshape reorder) measure maxWidth text := by
  unfold allRenderLines referenceRenderLines
  rw [removeTrailingSpacer_spacerJoined]
  exact congrArg blankJoined (List.map_congr_left
    (fun p _ => (wrapReference_eq_wrapText _ measure maxWidth p.trim).symm))

/-! ## AssetAcquirer lemmas -/

theorem lookupFile_removeFile (files : List FileEntry) (name : String) :
    lookupFile (removeFile files name) name = none := by
  induction files with
  | nil => rfl
  | cons e tl ih =>
    by_cases h : e.1 = name
    · rw [show removeFile (e :: tl) name = removeFile tl name from by
        simp [removeFile, List.filter_cons, h]]
      exact ih
    · simp only [removeFile, List.filter_cons, lookupFile] at ih ⊢
      rw [if_pos (show (e.1 != name) = true from by simp [h])]
      rw [List.find?_cons_of_neg _ (by simp [h])]
      exact ih

theorem lookupFile_cons_self (files : List FileEntry) (name content : String) :
    lookupFile ((name, content) :: files) name = some content := by
  simp [lookupFile, List.find?_cons]

/-- Cache hit: no download attempt, the cache entry is copied to the
per-run path. -/
theorem acquireAudio_cache_hit (net : Net) (fsys : FileSys) (reciterId : String)
    (surah verse timestamp : ℕ) (c : String)
    (hhit : lookupFile fsys.cache (audioCacheFileName reciterId surah verse) = some c) :
    acquireAudio net fsys reciterId surah verse timestamp =
      ({ fsys with temp := (runAudioFileName timestamp verse, c) :: fsys.temp },
        0, some (runAudioFileName timestamp verse)) := by
  simp only [acquireAudio]
  rw [hhit]
  simp [hhit]

/-- Cache miss with a successful download: one download attempt, the
payload lands in the cache and is copied to the per-run path. -/
theorem acquireAudio_download (net : Net) (fsys : FileSys) (reciterId : String)
    (surah verse timestamp : ℕ)
    (hmiss : lookupFile fsys.cache (audioCacheFileName reciterId surah verse) = none)
    (hok : net.ok (audioUrl reciterId surah verse) = true) :
    acquireAudio net fsys reciterId surah verse timestamp =
      ({ cache := (audioCacheFileName reciterId surah verse,
            net.content (audioUrl reciterId surah verse)) :: fsys.cache,
         temp := (runAudioFileName timestamp verse,
            net.content (audioUrl reciterId surah verse)) :: fsys.temp },
        1, some (runAudioFileName timestamp verse)) := by
  simp only [acquireAudio]
  rw [hmiss]
  simp [hok, lookupFile_cons_self]

/-- Cache miss, failed download, matching temp file: its content becomes
the cache entry and the per-run copy. -/
theorem acquireAudio_fallback (net : Net) (fsys : FileSys) (reciterId : String)
    (surah verse timestamp : ℕ) (e : FileEntry)
    (hmiss : lookupFile fsys.cache (audioCacheFileName reciterId surah verse) = none)
    (hfail : net.ok (audioUrl reciterId surah verse) = false)
    (hfind : fsys.temp.find? (fun en => jsIncludes en.1 (fallbackPattern verse)) = some e) :
    acquireAudio net fsys reciterId surah verse timestamp =
      ({ cache := (audioCacheFileName reciterId surah verse, e.2) :: fsys.cache,
         temp := (runAudioFileName timestamp verse, e.2) :: fsys.temp },
        1, some (runAudioFileName timestamp verse)) := by
  simp only [acquireAudio]
  rw [hmiss]
  simp [hfail, hfind, lookupFile_cons_self]

/-- Cache miss, failed download, no matching temp file: no audio resolves. -/
theorem acquireAudio_unresolved (net : Net) (fsys : FileSys) (reciterId : String)
    (surah verse timestamp : ℕ)
    (hmiss : lookupFile fsys.cache (audioCacheFileName reciterId surah verse) = none)
    (hfail : net.ok (audioUrl reciterId surah verse) = false)
    (hfind : fsys.temp.find? (fun en => jsIncludes en.1 (fallbackPattern verse)) = none) :
    acquireAudio net fsys reciterId surah verse timestamp = (fsys, 1, none) := by
  simp only [acquireAudio]
  rw [hmiss]
  simp [hfail, hfind, hmiss]

/-- C10: whatever way a `downloadFile` call fails — the request threw, a
non-200 status arrived, or the write stream errored — the destination file
is unlinked before the error propagates: a failed download leaves no file
(in particular no truncated cache entry) at the destination path. -/
theorem download_failure_leaves_no_file (ev : DownloadEvent) (content dest : String)
    (files : List FileEntry)
    (hfail : (downloadFile ev content dest files).2 = false) :
    lookupFile (downloadFile ev content dest files).1 dest = none := by
  cases ev with
  | requestError =>
    simp only [downloadFile]
    exact lookupFile_removeFile _ _
  | response status writeOk =>
    by_cases hs : status ≠ 200
    · simp only [downloadFile, if_pos hs]
      exact lookupFile_removeFile _ _
    · cases writeOk with
      | true => simp [downloadFile, hs] at hfail
      | false =>
        simp only [downloadFile, if_neg hs, Bool.false_eq_true, if_false]
        exact lookupFile_removeFile _ _

/-- Witness for C10: a 404 response while writing into the audio cache
leaves no file at the cache path. -/
theorem download_failure_leaves_no_file_witness :
    (downloadFile (DownloadEvent.response 404 true) "payload" "7_002005.mp3"
      [("7_002005.mp3", "old")]).2 = false ∧
    lookupFile (downloadFile (DownloadEvent.response 404 true) "payload" "7_002005.mp3"
      [("7_002005.mp3", "old")]).1 "7_002005.mp3" = none := by
  refine ⟨by decide, ?_⟩
  exact download_failure_leaves_no_file (DownloadEvent.response 404 true) "payload"
    "7_002005.mp3" [("7_002005.mp3", "old")] (by decide)

/-- C4: per verse the acquisition tries the persistent cache, then the
network download, then the temp-directory fallback, in that order: a cache
hit makes no download attempt; a miss downloads into the cache; a failed
download falls back to a matching temp file; and when all three fail the
verse resolves no audio, the whole job aborts with the error naming that
verse, and `generateReel` produces no output artifact. -/
theorem audio_acquisition_order_and_failure
    (net : Net) (diskHas : String → Bool) (durationOf : String → ℚ)
    (fsys : FileSys) (reciterId : String) (surah verse timestamp : ℕ)
    (vs : List ℕ) (bg : Option String) :
    ((lookupFile fsys.cache (audioCacheFileName reciterId surah verse)).isSome →
      (acquireAudio net fsys reciterId surah verse timestamp).2.1 = 0 ∧
      (acquireAudio net fsys reciterId surah verse timestamp).2.2 =
        some (runAudioFileName timestamp verse)) ∧
    (lookupFile fsys.cache (audioCacheFileName reciterId surah verse) = none →
      net.ok (audioUrl reciterId surah verse) = true →
      (acquireAudio net fsys reciterId surah verse timestamp).2.1 = 1 ∧
      (acquireAudio net fsys reciterId surah verse timestamp).2.2 =
        some (runAudioFileName timestamp verse) ∧
      lookupFile (acquireAudio net fsys reciterId surah verse timestamp).1.cache
        (audioCacheFileName reciterId surah verse) =
        some (net.content (audioUrl reciterId surah verse))) ∧
    (∀ e, lookupFile fsys.cache (audioCacheFileName reciterId surah verse) = none →
      net.ok (audioUrl reciterId surah verse) = false →
      fsys.temp.find? (fun en => jsIncludes en.1 (fallbackPattern verse)) = some e →
      (acquireAudio net fsys reciterId surah verse timestamp).2.2 =
        some (runAudioFileName timestamp verse)) ∧
    (lookupFile fsys.cache (audioCacheFileName reciterId surah verse) = none →
      net.ok (audioUrl reciterId surah verse) = false →
      fsys.temp.find? (fun en => jsIncludes en.1 (fallbackPattern verse)) = none →
      (acquireAudio net fsys reciterId surah verse timestamp).2.2 = none ∧
      acquireAll net reciterId surah timestamp fsys (verse :: vs) =
        Except.error (audioErrorMessage verse) ∧
      generateReelModel net diskHas durationOf fsys reciterId surah (verse :: vs)
        bg timestamp = Except.error (audioErrorMessage verse) ∧
      audioErrorMessage verse =
        "تعذر تحميل الصوت للآية " ++ toString verse ++ ". تأكد من اتصال الإنترنت.") := by
  refine ⟨?_, ?_, ?_, ?_⟩
  · intro hhit
    obtain ⟨c, hc⟩ := Option.isSome_iff_exists.mp hhit
    rw [acquireAudio_cache_hit net fsys reciterId surah verse timestamp c hc]
    exact ⟨rfl, rfl⟩
  · intro hmiss hok
    rw [acquireAudio_download net fsys reciterId surah verse timestamp hmiss hok]
    exact ⟨rfl, rfl, lookupFile_cons_self _ _ _⟩
  · intro e hmiss hfail hfind
    rw [acquireAudio_fallback net fsys reciterId surah verse timestamp e hmiss hfail hfind]
  · intro hmiss hfail hfind
    have hacq2 : acquireAudio net fsys reciterId surah verse timestamp =
        (fsys, 1, none) :=
      acquireAudio_unresolved net fsys reciterId surah verse timestamp hmiss hfail hfind
    have hall : acquireAll net reciterId surah timestamp fsys (verse :: vs) =
        Except.error (audioErrorMessage verse) := by
      simp [acquireAll, hacq2]
    refine ⟨by rw [hacq2], hall, ?_, rfl⟩
    simp [generateReelModel, hall]

/-- Witness for C4 at the all-fail branch: empty cache and temp, a network
that fails every URL — verse 5 of surah 2 aborts the whole job with the
error message naming `5`. -/
theorem audio_acquisition_order_and_failure_witness :
    acquireAll { ok := fun _ => false, content := fun _ => "" } "7" 2 1
      { cache := [], temp := [] } [5] =
      Except.error (audioErrorMessage 5) ∧
    generateReelModel { ok := fun _ => false, content := fun _ => "" }
      (fun _ => false) (fun _ => 1) { cache := [], temp := [] } "7" 2 [5] none 1 =
      Except.error (audioErrorMessage 5) ∧
    audioErrorMessage 5 =
      "تعذر تحميل الصوت للآية " ++ toString 5 ++ ". تأكد من اتصال الإنترنت." := by
  have h := (audio_acquisition_order_and_failure
    { ok := fun _ => false, content := fun _ => "" } (fun _ => false) (fun _ => 1)
    { cache := [], temp := [] } "7" 2 5 1 [] none).2.2.2 rfl rfl rfl
  exact ⟨h.2.1, h.2.2.1, h.2.2.2⟩

/-- C7: requesting the same (reciter, surah, verse) key twice — here in two
runs with distinct timestamps — triggers exactly one network download: the
first populates the cache, the second finds the entry, copies it to its
own per-run path, and makes no network call. -/
theorem audio_cache_single_download (net : Net) (fsys : FileSys)
    (reciterId : String) (surah verse t1 t2 : ℕ)
    (hmiss : lookupFile fsys.cache (audioCacheFileName reciterId surah verse) = none)
    (hok : net.ok (audioUrl reciterId surah verse) = true) :
    (acquireAudio net fsys reciterId surah verse t1).2.1 = 1 ∧
    (acquireAudio net (acquireAudio net fsys reciterId surah verse t1).1
      reciterId surah verse t2).2.1 = 0 ∧
    (acquireAudio net fsys reciterId surah verse t1).2.1 +
      (acquireAudio net (acquireAudio net fsys reciterId surah verse t1).1
        reciterId surah verse t2).2.1 = 1 ∧
    (acquireAudio net (acquireAudio net fsys reciterId surah verse t1).1
      reciterId surah verse t2).2.2 = some (runAudioFileName t2 verse) ∧
    lookupFile (acquireAudio net (acquireAudio net fsys reciterId surah verse t1).1
      reciterId surah verse t2).1.temp (runAudioFileName t2 verse) =
      some (net.content (audioUrl reciterId surah verse)) := by
  have h1 := acquireAudio_download net fsys reciterId surah verse t1 hmiss hok
  have h2 := acquireAudio_cache_hit net (acquireAudio net fsys reciterId surah verse t1).1
    reciterId surah verse t2 (net.content (audioUrl reciterId surah verse))
    (by rw [h1]; exact lookupFile_cons_self _ _ _)
  refine ⟨by rw [h1], by rw [h2], by rw [h2]; simp [h1], by rw [h2], ?_⟩
  rw [h2]
  exact lookupFile_cons_self _ _ _

/-- Witness for C7: reciter `"7"`, surah 2, verse 5, runs stamped 1 and 2,
an always-succeeding network delivering `"recitation"`: one download in
total, the second run copies the cache entry. -/
theorem audio_cache_single_download_witness :
    (acquireAudio { ok := fun _ => true, content := fun _ => "recitation" }
      { cache := [], temp := [] } "7" 2 5 1).2.1 = 1 ∧
    (acquireAudio { ok := fun _ => true, content := fun _ => "recitation" }
      (acquireAudio { ok := fun _ => true, content := fun _ => "recitation" }
        { cache := [], temp := [] } "7" 2 5 1).1 "7" 2 5 2).2.1 = 0 ∧
    (acquireAudio { ok := fun _ => true, content := fun _ => "recitation" }
      (acquireAudio { ok := fun _ => true, content := fun _ => "recitation" }
        { cache := [], temp := [] } "7" 2 5 1).1 "7" 2 5 2).2.2 =
      some (runAudioFileName 2 5) := by
  have h := audio_cache_single_download
    { ok := fun _ => true, content := fun _ => "recitation" }
    { cache := [], temp := [] } "7" 2 5 1 2 rfl rfl
  exact ⟨h.1, h.2.1, h.2.2.2.1⟩

/-- C9: when the cache misses and the download fails, the fallback takes
whatever temp-directory entry `find?` returns for the pattern
`_⟨verse⟩.mp3` — a pattern mentioning only the verse number, not the
reciter, surah or job timestamp — and installs that file's content as the
permanent cache entry for the current (reciter, surah, verse) key. -/
theorem temp_fallback_cross_key (net : Net) (fsys : FileSys)
    (reciterId : String) (surah verse timestamp : ℕ) (e : FileEntry)
    (hmiss : lookupFile fsys.cache (audioCacheFileName reciterId surah verse) = none)
    (hfail : net.ok (audioUrl reciterId surah verse) = false)
    (hfind : fsys.temp.find? (fun en => jsIncludes en.1 (fallbackPattern verse)) = some e) :
    lookupFile (acquireAudio net fsys reciterId surah verse timestamp).1.cache
      (audioCacheFileName reciterId surah verse) = some e.2 ∧
    (acquireAudio net fsys reciterId surah verse timestamp).2.2 =
      some (runAudioFileName timestamp verse) ∧
    fallbackPattern verse = "_" ++ toString verse ++ ".mp3" := by
  have h1 := acquireAudio_fallback net fsys reciterId surah verse timestamp e hmiss hfail hfind
  refine ⟨?_, by rw [h1], rfl⟩
  rw [h1]
  exact lookupFile_cons_self _ _ _

/-- Witness for C9: the temp directory holds `audio_999_5.mp3` left by a
different job (content `"other-reciter-surah-99"`); requesting reciter
`"7"`, surah 2, verse 5 with a dead network permanently caches that
foreign audio under the key `7_002005.mp3`. -/
theorem temp_fallback_cross_key_witness :
    lookupFile (acquireAudio { ok := fun _ => false, content := fun _ => "" }
      { cache := [], temp := [("audio_999_5.mp3", "other-reciter-surah-99")] }
      "7" 2 5 1).1.cache (audioCacheFileName "7" 2 5) =
      some "other-reciter-surah-99" ∧
    audioCacheFileName "7" 2 5 = "7_002005.mp3" := by
  have h := temp_fallback_cross_key { ok := fun _ => false, content := fun _ => "" }
    { cache := [], temp := [("audio_999_5.mp3", "other-reciter-surah-99")] }
    "7" 2 5 1 ("audio_999_5.mp3", "other-reciter-surah-99") rfl rfl (by decide)
  exact ⟨h.1, by decide⟩

/-- C5: when the job supplies no custom background path that exists on
disk and both remote background sources fail, background resolution throws
`backgroundErrorMessage`, the pipeline never produces an output artifact,
and (with the audio stage succeeding) the job's error is exactly that
message — no silent background substitute exists. -/
theorem background_unavailable (net : Net) (diskHas : String → Bool)
    (durationOf : String → ℚ) (fsys : FileSys) (reciterId : String)
    (surah timestamp : ℕ) (verses : List ℕ) (bg : Option String)
    (hcustom : ∀ p, bg = some p → diskHas p = false)
    (hl : net.ok loremFlickrUrl = false)
    (hp : net.ok picsumUrl = false) :
    resolveBackground net diskHas bg timestamp =
      Except.error backgroundErrorMessage ∧
    (∀ out, generateReelModel net diskHas durationOf fsys reciterId surah verses
      bg timestamp ≠ Except.ok out) ∧
    (∀ st, acquireAll net reciterId surah timestamp fsys verses = Except.ok st →
      generateReelModel net diskHas durationOf fsys reciterId surah verses
        bg timestamp = Except.error backgroundErrorMessage) := by
  have hbg : resolveBackground net diskHas bg timestamp =
      Except.error backgroundErrorMessage := by
    cases bg with
    | none => simp [resolveBackground, fetchRemoteBackground, hl, hp]
    | some p =>
      simp [resolveBackground, fetchRemoteBackground, hl, hp, hcustom p rfl]
  refine ⟨hbg, ?_, ?_⟩
  · intro out hout
    unfold generateReelModel at hout
    cases hall : acquireAll net reciterId surah timestamp fsys verses with
    | error e => rw [hall] at hout; exact Except.noConfusion hout
    | ok st =>
      rw [hall, hbg] at hout
      exact Except.noConfusion hout
  · intro st hall
    unfold generateReelModel
    rw [hall, hbg]

/-- Witness for C5: no custom background, empty verse list, dead network —
the job fails with exactly `backgroundErrorMessage`. -/
theorem background_unavailable_witness :
    generateReelModel { ok := fun _ => false, content := fun _ => "" }
      (fun _ => false) (fun _ => 1) { cache := [], temp := [] } "7" 2 [] none 1 =
      Except.error backgroundErrorMessage := by
  have h := background_unavailable { ok := fun _ => false, content := fun _ => "" }
    (fun _ => false) (fun _ => 1) { cache := [], temp := [] } "7" 2 1 [] none
    (by intro p hp; exact absurd hp (by simp)) rfl rfl
  exact h.2.2 ({ cache := [], temp := [] }, 0, []) rfl

/-! ## Still-image background motion (C8) -/

/-- C8 counterexample: at frame 0 the code's zoom factor is
`min(1.05 + 0, 1.5) = 1.05`, not the `1.35 + 0.2·sin(0/35) = 1.35` of the
oscillating formula the claim describes. -/
theorem ken_burns_zoom_ce :
    ((stillBackgroundFilter.zoom 0 : ℚ) : ℝ) ≠
      1.35 + 0.2 * Real.sin ((0 : ℝ) / 35) := by
  have hz : stillBackgroundFilter.zoom 0 = 1.05 := by
    show kenBurnsZoom 0 = 1.05
    rw [kenBurnsZoom]
    norm_num
  rw [hz, zero_div, Real.sin_zero]
  norm_num

/-- C8 amended: the still-image path scale-to-fills and center-crops to
the oversized 1280x2276 canvas and applies a zoompan whose zoom factor is
`min(1.05 + 0.001·frame, 1.5)` — a slow monotone (never oscillating)
zoom-in capped at 1.5 and never below 1.05 — before the final crop to the
1080x1920 target. -/
theorem still_background_motion (m n : ℕ) (hmn : m ≤ n) :
    stillBackgroundFilter.scaleW = 1280 ∧ stillBackgroundFilter.scaleH = 2276 ∧
    stillBackgroundFilter.cropW = 1280 ∧ stillBackgroundFilter.cropH = 2276 ∧
    stillBackgroundFilter.outW = 1080 ∧ stillBackgroundFilter.outH = 1920 ∧
    stillBackgroundFilter.zoom n = min (1.05 + (n : ℚ) * 0.001) 1.5 ∧
    stillBackgroundFilter.zoom m ≤ stillBackgroundFilter.zoom n ∧
    1.05 ≤ stillBackgroundFilter.zoom n ∧ stillBackgroundFilter.zoom n ≤ 1.5 := by
  have hc : (m : ℚ) ≤ n := by exact_mod_cast hmn
  have hz : ∀ k : ℕ, stillBackgroundFilter.zoom k = min (1.05 + (k : ℚ) * 0.001) 1.5 :=
    fun k => rfl
  refine ⟨rfl, rfl, rfl, rfl, rfl, rfl, hz n, ?_, ?_, ?_⟩
  · rw [hz m, hz n]
    refine min_le_min ?_ le_rfl
    have : (m : ℚ) * 0.001 ≤ (n : ℚ) * 0.001 :=
      mul_le_mul_of_nonneg_right hc (by norm_num)
    linarith
  · rw [hz n]
    refine le_min ?_ (by norm_num)
    have h0 : (0 : ℚ) ≤ (n : ℚ) * 0.001 := by positivity
    linarith
  · rw [hz n]
    exact min_le_right _ _

/-- Witness for the amended C8 at frames 0 and 100. -/
theorem still_background_motion_witness :
    stillBackgroundFilter.zoom 0 ≤ stillBackgroundFilter.zoom 100 ∧
    stillBackgroundFilter.zoom 100 = min (1.05 + (100 : ℚ) * 0.001) 1.5 ∧
    (1.05 : ℚ) ≤ stillBackgroundFilter.zoom 100 ∧ stillBackgroundFilter.zoom 100 ≤ 1.5 := by
  have h := still_background_motion 0 100 (by norm_num)
  exact ⟨h.2.2.2.2.2.2.2.1, by rw [h.2.2.2.2.2.2.1]; norm_num,
    h.2.2.2.2.2.2.2.2.1, h.2.2.2.2.2.2.2.2.2⟩

end QuranReels
